import Mathlib

/-!
Verification of the color-format dispatcher of the eyedropper repository
(src/colors/notation.rs): the closed variant set of color notations, its
parse/format dispatch, label lookup and display strings.

Only the dispatcher file is part of the source tree given here; the
per-notation parsers, formatters, the canonical Color value, the illuminant
and alpha-position enumerations and the color-name registry live in sibling
modules that are not available.  Those are therefore modelled: the Color and
error values concretely from the spec's data model, and the parser/formatter
routines abstractly, as bundles of functions with exactly the argument lists
the dispatcher hands them.  Theorems about the dispatcher are proved for
every such bundle, so they depend only on the code that is actually present.
-/

/-- Modelled from the spec: the canonical Color value type is in the missing
`color` module.  The spec describes an immutable value with per-channel data
(0-255 style channels) plus alpha; the dispatcher only moves whole Color
values around, so the channel representation is immaterial to the claims. -/
structure Color where
  red : Nat
  green : Nat
  blue : Nat
  alpha : Nat
deriving DecidableEq, Repr

/-- Modelled from the spec: the single error kind of the missing `color`
module; the dispatcher constructs it as `ColorError::ParsingError(msg)`
carrying a human-readable message. -/
inductive ColorError where
  | ParsingError (msg : String)
deriving DecidableEq, Repr

/-- Modelled from the spec: the CIE standard illuminant enumeration of the
missing `illuminant` module ("D65, D50, A, etc."). -/
inductive Illuminant where
  | A
  | B
  | C
  | D50
  | D55
  | D65
  | D75
  | E
  | F2
  | F7
  | F11
deriving DecidableEq, Repr

/-- Modelled from the spec: the total `From<u32>` conversion of the missing
`illuminant` module.  `From` in Rust cannot fail, so every index converts;
unrecognized indices fall back silently to the D65 default. -/
def Illuminant.fromU32 (v : Nat) : Illuminant :=
  match v with
  | 0 => Illuminant.A
  | 1 => Illuminant.B
  | 2 => Illuminant.C
  | 3 => Illuminant.D50
  | 4 => Illuminant.D55
  | 5 => Illuminant.D65
  | 6 => Illuminant.D75
  | 7 => Illuminant.E
  | 8 => Illuminant.F2
  | 9 => Illuminant.F7
  | 10 => Illuminant.F11
  | _ => Illuminant.D65

/-- Modelled from the spec: the alpha-position enumeration of the missing
`position` module ("leading vs trailing", plus the no-alpha setting). -/
inductive AlphaPosition where
  | None
  | End
  | Start
deriving DecidableEq, Repr

/-- Modelled from the spec: the total `From<u32>` conversion of the missing
`position` module; unrecognized indices fall back silently to `None`. -/
def AlphaPosition.fromU32 (v : Nat) : AlphaPosition :=
  match v with
  | 0 => AlphaPosition.None
  | 1 => AlphaPosition.End
  | 2 => AlphaPosition.Start
  | _ => AlphaPosition.None

/-- Rust's `as u32` cast on an `i32` settings value: two's-complement
wrap, i.e. reduction modulo 2^32. -/
def toU32 (i : Int) : Nat :=
  (i % (2 ^ 32 : Int)).toNat

/-- The three integer configuration values the dispatcher reads from the
GSettings store at every call: `cie-standard-observer`, `cie-illuminants`
and `alpha-position` (each a `settings.int(..)`, an i32). -/
structure GSettings where
  cieStandardObserver : Int
  cieIlluminants : Int
  alphaPosition : Int
deriving DecidableEq, Repr

/-- Modelled from the spec: localization of labels is external to the core;
pre-localization it is the identity on the English msgid. -/
def gettext (s : String) : String := s

/-- Rust's `str::to_lowercase`, modelled character-wise (the lookup tokens
are ASCII, where per-char lowercasing is exact). -/
def rust_to_lowercase (s : String) : String :=
  String.mk (s.data.map Char.toLower)

/-- Rust's `str::trim`: remove whitespace from both ends. -/
def rust_trim (s : String) : String :=
  String.mk
    ((((s.data.dropWhile Char.isWhitespace).reverse).dropWhile
      Char.isWhitespace).reverse)

/-- The closed variant set of src/colors/notation.rs, in source order;
`Hex` carries the `#[default]` mark. -/
inductive Notation where
  | Hex
  | Rgb
  | Hsl
  | Hsv
  | Cmyk
  | Xyz
  | Lab
  | Hwb
  | Hcl
  | Name
  | Lms
  | HunterLab
  | Oklab
  | Oklch
deriving DecidableEq, Repr, Inhabited, Fintype

/-- All 14 variants, in declaration order (the enumeration used to populate
the UI). -/
def Notation.all : List Notation :=
  [Notation.Hex, Notation.Rgb, Notation.Hsl, Notation.Hsv, Notation.Cmyk,
   Notation.Xyz, Notation.Lab, Notation.Hwb, Notation.Hcl, Notation.Name,
   Notation.Lms, Notation.HunterLab, Notation.Oklab, Notation.Oklch]

/-- The signatures of the per-notation parsing routines of the missing
`parser` module, exactly as the dispatcher invokes them (src lines 44-59):
each takes the input text, `hex_color` additionally the alpha position, and
`cielab` / `hunter_lab` additionally the illuminant and the ten-degree
observer flag; each returns a (remaining text, Color) pair or a ColorError.
`color_names_color` is the `color_names::color` registry lookup with its
four tolerance flags (src line 61). -/
structure Parsers where
  hex_color : String → AlphaPosition → Except ColorError (String × Color)
  rgb : String → Except ColorError (String × Color)
  hsl : String → Except ColorError (String × Color)
  hsv : String → Except ColorError (String × Color)
  cmyk : String → Except ColorError (String × Color)
  xyz : String → Except ColorError (String × Color)
  cielab : String → Illuminant → Bool → Except ColorError (String × Color)
  hwb : String → Except ColorError (String × Color)
  lch : String → Except ColorError (String × Color)
  lms : String → Except ColorError (String × Color)
  hunter_lab : String → Illuminant → Bool → Except ColorError (String × Color)
  oklab : String → Except ColorError (String × Color)
  oklch : String → Except ColorError (String × Color)
  color_names_color : String → Bool → Bool → Bool → Bool → Option Color

/-- The dispatch `match self { .. }` of `Notation::parse` (src lines 40-63),
producing the raw (remaining text, Color) result of the selected routine.
The configuration reads precede the match: `ten_deg_observer` is
`settings.int("cie-standard-observer") == 1`, the illuminant and the alpha
position are the total `From<u32>` conversions of the respective settings
ints.  The `Name` arm's early `return` of a bare Color is encoded as a pair
with an empty remainder so that the one `match` covers all arms. -/
def Notation.rawParse (P : Parsers) (s : GSettings) (n : Notation)
    (input : String) : Except ColorError (String × Color) :=
  let ten_deg_observer := s.cieStandardObserver == 1
  let illuminant := Illuminant.fromU32 (toU32 s.cieIlluminants)
  match n with
  | Notation.Hex =>
      P.hex_color input (AlphaPosition.fromU32 (toU32 s.alphaPosition))
  | Notation.Rgb => P.rgb input
  | Notation.Hsl => P.hsl input
  | Notation.Hsv => P.hsv input
  | Notation.Cmyk => P.cmyk input
  | Notation.Xyz => P.xyz input
  | Notation.Lab => P.cielab input illuminant ten_deg_observer
  | Notation.Hwb => P.hwb input
  | Notation.Hcl => P.lch input
  | Notation.Lms => P.lms input
  | Notation.HunterLab => P.hunter_lab input illuminant ten_deg_observer
  | Notation.Oklab => P.oklab input
  | Notation.Oklch => P.oklch input
  | Notation.Name =>
      match P.color_names_color input true true true true with
      | some c => Except.ok ("", c)
      | none => Except.error (ColorError.ParsingError "No name found")

/-- `Notation::parse` (src lines 39-66): run the selected routine and keep
only the Color of the `(_, color)` pair. -/
def Notation.parse (P : Parsers) (s : GSettings) (n : Notation)
    (input : String) : Except ColorError Color :=
  (Notation.rawParse P s n input).map Prod.snd

/-- The signatures of the formatting routines of the missing `formatter`
module, as `Notation::as_str` invokes them (src lines 68-91): the
`ColorFormatter` is built from the Color and the configured alpha position,
so each routine is a total function of those two; `color_names_name` is the
`color_names::name` reverse registry lookup with its four tolerance
flags (src line 88). -/
structure Formatters where
  hex_code : Color → AlphaPosition → String
  rgb : Color → AlphaPosition → String
  hsl : Color → AlphaPosition → String
  hsv : Color → AlphaPosition → String
  cmyk : Color → AlphaPosition → String
  xyz : Color → AlphaPosition → String
  cie_lab : Color → AlphaPosition → String
  hwb : Color → AlphaPosition → String
  hcl : Color → AlphaPosition → String
  lms : Color → AlphaPosition → String
  hunter_lab : Color → AlphaPosition → String
  oklab : Color → AlphaPosition → String
  oklch : Color → AlphaPosition → String
  color_names_name : Color → Bool → Bool → Bool → Bool → Option String

/-- `Notation::as_str` (src lines 68-91): always a String; the `Name`
arm degrades a registry miss to the localized "Not named" sentinel via
`unwrap_or`. -/
def Notation.as_str (F : Formatters) (s : GSettings) (n : Notation)
    (color : Color) : String :=
  let ap := AlphaPosition.fromU32 (toU32 s.alphaPosition)
  match n with
  | Notation.Hex => F.hex_code color ap
  | Notation.Rgb => F.rgb color ap
  | Notation.Hsl => F.hsl color ap
  | Notation.Hsv => F.hsv color ap
  | Notation.Cmyk => F.cmyk color ap
  | Notation.Xyz => F.xyz color ap
  | Notation.Lab => F.cie_lab color ap
  | Notation.Hwb => F.hwb color ap
  | Notation.Hcl => F.hcl color ap
  | Notation.Lms => F.lms color ap
  | Notation.HunterLab => F.hunter_lab color ap
  | Notation.Oklab => F.oklab color ap
  | Notation.Oklch => F.oklch color ap
  | Notation.Name =>
      match F.color_names_name color true true true true with
      | some nm => nm
      | none => gettext "Not named"

/-- `Notation::display_copy_string` (src lines 97-114): the fixed
per-variant action label, passed through gettext. -/
def Notation.display_copy_string (n : Notation) : String :=
  gettext (match n with
    | Notation.Hex => "Copy Hex Code"
    | Notation.Rgb => "Copy RGB"
    | Notation.Hsl => "Copy HSL"
    | Notation.Hsv => "Copy HSV"
    | Notation.Cmyk => "Copy CMYK"
    | Notation.Xyz => "Copy Xyz"
    | Notation.Lab => "Copy CIELAB"
    | Notation.Hwb => "Copy HWB"
    | Notation.Hcl => "Copy CIELCh / HCL"
    | Notation.Lms => "Copy LMS"
    | Notation.HunterLab => "Copy Hunter Lab"
    | Notation.Oklab => "Copy Oklab"
    | Notation.Oklch => "Copy Oklch"
    | Notation.Name => "Copy Name")

/-- The short identifying token each variant is looked up by in
`FromStr for Notation` (src lines 120-135). -/
def Notation.token : Notation → String
  | Notation.Hex => "hex"
  | Notation.Rgb => "rgb"
  | Notation.Hsl => "hsl"
  | Notation.Hsv => "hsv"
  | Notation.Cmyk => "cmyk"
  | Notation.Xyz => "xyz"
  | Notation.Lab => "cielab"
  | Notation.Hwb => "hwb"
  | Notation.Hcl => "hcl"
  | Notation.Name => "name"
  | Notation.Lms => "lms"
  | Notation.HunterLab => "hunterlab"
  | Notation.Oklab => "oklab"
  | Notation.Oklch => "oklch"

/-- The token dispatch of `FromStr for Notation` on the already
lowercased-and-trimmed text (the `match s.to_lowercase().trim()` body,
src lines 121-142). -/
def lookupToken (t : String) : Except ColorError Notation :=
  if t = "hex" then Except.ok Notation.Hex
  else if t = "rgb" then Except.ok Notation.Rgb
  else if t = "hsl" then Except.ok Notation.Hsl
  else if t = "hsv" then Except.ok Notation.Hsv
  else if t = "cmyk" then Except.ok Notation.Cmyk
  else if t = "xyz" then Except.ok Notation.Xyz
  else if t = "cielab" then Except.ok Notation.Lab
  else if t = "hwb" then Except.ok Notation.Hwb
  else if t = "hcl" then Except.ok Notation.Hcl
  else if t = "name" then Except.ok Notation.Name
  else if t = "lms" then Except.ok Notation.Lms
  else if t = "hunterlab" then Except.ok Notation.HunterLab
  else if t = "oklab" then Except.ok Notation.Oklab
  else if t = "oklch" then Except.ok Notation.Oklch
  else Except.error (ColorError.ParsingError "Failed to get color notation")

/-- `FromStr for Notation` (src lines 117-144): lowercase, trim, then
dispatch on the token. -/
def Notation.from_str (s : String) : Except ColorError Notation :=
  lookupToken (rust_trim (rust_to_lowercase s))

deriving instance DecidableEq for Except

/-- Modelled from the spec: a concrete sample bundle of parsing routines,
each honoring the spec's parser contract (empty remainder on success) on a
small fragment of its grammar; the sample hex routine honors the spec's
alpha-position convention (leading: alpha byte first; otherwise alpha byte
last).  Used to instantiate the dispatcher theorems, which themselves hold
for every bundle. -/
def specParsers : Parsers where
  hex_color input ap :=
    if input = "#11223344" then
      match ap with
      | AlphaPosition.Start =>
          Except.ok ("", { red := 34, green := 51, blue := 68, alpha := 17 })
      | _ =>
          Except.ok ("", { red := 17, green := 34, blue := 51, alpha := 68 })
    else Except.error (ColorError.ParsingError "Invalid hex string")
  rgb input :=
    if input = "rgb(1, 2, 3)" then
      Except.ok ("", { red := 1, green := 2, blue := 3, alpha := 255 })
    else Except.error (ColorError.ParsingError "Invalid rgb string")
  hsl _ := Except.error (ColorError.ParsingError "Invalid hsl string")
  hsv _ := Except.error (ColorError.ParsingError "Invalid hsv string")
  cmyk _ := Except.error (ColorError.ParsingError "Invalid cmyk string")
  xyz _ := Except.error (ColorError.ParsingError "Invalid xyz string")
  cielab _ _ _ := Except.error (ColorError.ParsingError "Invalid lab string")
  hwb _ := Except.error (ColorError.ParsingError "Invalid hwb string")
  lch _ := Except.error (ColorError.ParsingError "Invalid lch string")
  lms _ := Except.error (ColorError.ParsingError "Invalid lms string")
  hunter_lab _ _ _ :=
    Except.error (ColorError.ParsingError "Invalid hunter lab string")
  oklab _ := Except.error (ColorError.ParsingError "Invalid oklab string")
  oklch _ := Except.error (ColorError.ParsingError "Invalid oklch string")
  color_names_color input _ _ _ _ :=
    if input = "red" then
      some { red := 255, green := 0, blue := 0, alpha := 255 }
    else none

/-- Modelled from the spec: a concrete sample bundle of formatting routines
used to instantiate the dispatcher theorems (which hold for every bundle). -/
def specFormatters : Formatters where
  hex_code _ _ := "#000000"
  rgb _ _ := "rgb(0, 0, 0)"
  hsl _ _ := "hsl(0, 0%, 0%)"
  hsv _ _ := "hsv(0, 0%, 0%)"
  cmyk _ _ := "cmyk(0%, 0%, 0%, 100%)"
  xyz _ _ := "XYZ(0, 0, 0)"
  cie_lab _ _ := "CIELAB(0, 0, 0)"
  hwb _ _ := "hwb(0, 0%, 100%)"
  hcl _ _ := "lch(0, 0, 0)"
  lms _ _ := "L: 0, M: 0, S: 0"
  hunter_lab _ _ := "L: 0, a: 0, b: 0"
  oklab _ _ := "oklab(0 0 0)"
  oklch _ _ := "oklch(0 0 0)"
  color_names_name c _ _ _ _ :=
    if c = { red := 0, green := 0, blue := 0, alpha := 255 } then some "black"
    else none

/-- The spec's contract on the per-notation parsing routines: on success the
remaining text is empty ("for standalone use it must be empty on success").
Modelled from the spec, since the routine bodies are not under src/. -/
def ConsumesAll (P : Parsers) : Prop :=
  (∀ input ap rem c,
     P.hex_color input ap = Except.ok (rem, c) → rem = "") ∧
  (∀ input rem c, P.rgb input = Except.ok (rem, c) → rem = "") ∧
  (∀ input rem c, P.hsl input = Except.ok (rem, c) → rem = "") ∧
  (∀ input rem c, P.hsv input = Except.ok (rem, c) → rem = "") ∧
  (∀ input rem c, P.cmyk input = Except.ok (rem, c) → rem = "") ∧
  (∀ input rem c, P.xyz input = Except.ok (rem, c) → rem = "") ∧
  (∀ input ill obs rem c,
     P.cielab input ill obs = Except.ok (rem, c) → rem = "") ∧
  (∀ input rem c, P.hwb input = Except.ok (rem, c) → rem = "") ∧
  (∀ input rem c, P.lch input = Except.ok (rem, c) → rem = "") ∧
  (∀ input rem c, P.lms input = Except.ok (rem, c) → rem = "") ∧
  (∀ input ill obs rem c,
     P.hunter_lab input ill obs = Except.ok (rem, c) → rem = "") ∧
  (∀ input rem c, P.oklab input = Except.ok (rem, c) → rem = "") ∧
  (∀ input rem c, P.oklch input = Except.ok (rem, c) → rem = "")

/-- The sample parser bundle satisfies the spec's parser contract. -/
theorem specParsers_consumesAll : ConsumesAll specParsers := by
  refine ⟨?_, ?_, ?_, ?_, ?_, ?_, ?_, ?_, ?_, ?_, ?_, ?_, ?_⟩
  · intro input ap rem c h
    simp only [specParsers] at h
    split at h
    · cases ap <;> simp_all
    · simp_all
  all_goals intros; simp_all [specParsers]
  all_goals split at * <;> simp_all

/-- Token lookup succeeds exactly when the normalized text is a variant's token. -/
theorem lookupToken_ok_iff (t : String) (n : Notation) :
    lookupToken t = Except.ok n ↔ t = Notation.token n := by
  unfold lookupToken
  by_cases h1 : t = "hex"
  · rw [if_pos h1]
    subst h1
    cases n <;> decide
  rw [if_neg h1]
  by_cases h2 : t = "rgb"
  · rw [if_pos h2]
    subst h2
    cases n <;> decide
  rw [if_neg h2]
  by_cases h3 : t = "hsl"
  · rw [if_pos h3]
    subst h3
    cases n <;> decide
  rw [if_neg h3]
  by_cases h4 : t = "hsv"
  · rw [if_pos h4]
    subst h4
    cases n <;> decide
  rw [if_neg h4]
  by_cases h5 : t = "cmyk"
  · rw [if_pos h5]
    subst h5
    cases n <;> decide
  rw [if_neg h5]
  by_cases h6 : t = "xyz"
  · rw [if_pos h6]
    subst h6
    cases n <;> decide
  rw [if_neg h6]
  by_cases h7 : t = "cielab"
  · rw [if_pos h7]
    subst h7
    cases n <;> decide
  rw [if_neg h7]
  by_cases h8 : t = "hwb"
  · rw [if_pos h8]
    subst h8
    cases n <;> decide
  rw [if_neg h8]
  by_cases h9 : t = "hcl"
  · rw [if_pos h9]
    subst h9
    cases n <;> decide
  rw [if_neg h9]
  by_cases h10 : t = "name"
  · rw [if_pos h10]
    subst h10
    cases n <;> decide
  rw [if_neg h10]
  by_cases h11 : t = "lms"
  · rw [if_pos h11]
    subst h11
    cases n <;> decide
  rw [if_neg h11]
  by_cases h12 : t = "hunterlab"
  · rw [if_pos h12]
    subst h12
    cases n <;> decide
  rw [if_neg h12]
  by_cases h13 : t = "oklab"
  · rw [if_pos h13]
    subst h13
    cases n <;> decide
  rw [if_neg h13]
  by_cases h14 : t = "oklch"
  · rw [if_pos h14]
    subst h14
    cases n <;> decide
  rw [if_neg h14]
  cases n
  · simp [Notation.token, h1]
  · simp [Notation.token, h2]
  · simp [Notation.token, h3]
  · simp [Notation.token, h4]
  · simp [Notation.token, h5]
  · simp [Notation.token, h6]
  · simp [Notation.token, h7]
  · simp [Notation.token, h8]
  · simp [Notation.token, h9]
  · simp [Notation.token, h10]
  · simp [Notation.token, h11]
  · simp [Notation.token, h12]
  · simp [Notation.token, h13]
  · simp [Notation.token, h14]

/-- Token lookup fails with the descriptive error on every non-token. -/
theorem lookupToken_none (t : String)
    (h : ∀ n : Notation, t ≠ Notation.token n) :
    lookupToken t =
      Except.error (ColorError.ParsingError "Failed to get color notation") := by
  unfold lookupToken
  rw [if_neg (show t ≠ "hex" from h Notation.Hex)]
  rw [if_neg (show t ≠ "rgb" from h Notation.Rgb)]
  rw [if_neg (show t ≠ "hsl" from h Notation.Hsl)]
  rw [if_neg (show t ≠ "hsv" from h Notation.Hsv)]
  rw [if_neg (show t ≠ "cmyk" from h Notation.Cmyk)]
  rw [if_neg (show t ≠ "xyz" from h Notation.Xyz)]
  rw [if_neg (show t ≠ "cielab" from h Notation.Lab)]
  rw [if_neg (show t ≠ "hwb" from h Notation.Hwb)]
  rw [if_neg (show t ≠ "hcl" from h Notation.Hcl)]
  rw [if_neg (show t ≠ "name" from h Notation.Name)]
  rw [if_neg (show t ≠ "lms" from h Notation.Lms)]
  rw [if_neg (show t ≠ "hunterlab" from h Notation.HunterLab)]
  rw [if_neg (show t ≠ "oklab" from h Notation.Oklab)]
  rw [if_neg (show t ≠ "oklch" from h Notation.Oklch)]

/-- Boolean success test on an Except result. -/
def exceptIsOk {e a : Type} : Except e a → Bool
  | Except.ok _ => true
  | Except.error _ => false

/-- C8: the Notation enumeration is a closed set of exactly 14 distinct
variants and its default value is Hex. -/
theorem notation_closed_enum_of_14_with_default_hex :
    Notation.all.length = 14 ∧ Notation.all.Nodup ∧
    (∀ n : Notation, n ∈ Notation.all) ∧
    (default : Notation) = Notation.Hex := by
  refine ⟨rfl, by decide, ?_, rfl⟩
  intro n
  cases n <;> simp [Notation.all]

/-- C9: display_copy_string is the total fixed mapping from each of the 14
variants to its pre-localization action label. -/
theorem display_copy_string_fixed_table :
    Notation.display_copy_string Notation.Hex = "Copy Hex Code" ∧
    Notation.display_copy_string Notation.Rgb = "Copy RGB" ∧
    Notation.display_copy_string Notation.Hsl = "Copy HSL" ∧
    Notation.display_copy_string Notation.Hsv = "Copy HSV" ∧
    Notation.display_copy_string Notation.Cmyk = "Copy CMYK" ∧
    Notation.display_copy_string Notation.Xyz = "Copy Xyz" ∧
    Notation.display_copy_string Notation.Lab = "Copy CIELAB" ∧
    Notation.display_copy_string Notation.Hwb = "Copy HWB" ∧
    Notation.display_copy_string Notation.Hcl = "Copy CIELCh / HCL" ∧
    Notation.display_copy_string Notation.Lms = "Copy LMS" ∧
    Notation.display_copy_string Notation.HunterLab = "Copy Hunter Lab" ∧
    Notation.display_copy_string Notation.Oklab = "Copy Oklab" ∧
    Notation.display_copy_string Notation.Oklch = "Copy Oklch" ∧
    Notation.display_copy_string Notation.Name = "Copy Name" :=
  ⟨rfl, rfl, rfl, rfl, rfl, rfl, rfl, rfl, rfl, rfl, rfl, rfl, rfl, rfl⟩

/-- C5: Notation::from_str succeeds exactly on the 14 short identifying
tokens, matched case-insensitively with surrounding whitespace trimmed
("RGB", "rgb" and " rgb " all give Rgb, "cielab" gives Lab, "hunterlab"
gives HunterLab); on every other input it fails with the descriptive
parsing error. -/
theorem from_str_token_characterization :
    (∀ (s : String) (n : Notation),
        Notation.from_str s = Except.ok n ↔
          rust_trim (rust_to_lowercase s) = Notation.token n) ∧
    (∀ s : String,
        (∀ n : Notation, rust_trim (rust_to_lowercase s) ≠ Notation.token n) →
        Notation.from_str s =
          Except.error (ColorError.ParsingError "Failed to get color notation")) ∧
    Notation.from_str "RGB" = Except.ok Notation.Rgb ∧
    Notation.from_str "rgb" = Except.ok Notation.Rgb ∧
    Notation.from_str " rgb " = Except.ok Notation.Rgb ∧
    Notation.from_str "cielab" = Except.ok Notation.Lab ∧
    Notation.from_str "hunterlab" = Except.ok Notation.HunterLab := by
  refine ⟨fun s n => lookupToken_ok_iff _ n, fun s h => lookupToken_none _ h,
    ?_, ?_, ?_, ?_, ?_⟩ <;> decide

/-- C5 witness: a non-token input fails with the descriptive error. -/
theorem from_str_token_characterization_witness :
    Notation.from_str "notacolor" =
      Except.error (ColorError.ParsingError "Failed to get color notation") :=
  from_str_token_characterization.2.1 "notacolor" (by decide)

/-- C2: whenever the dispatcher parse succeeds on a non-Name variant, the
underlying per-notation routine consumed the entire input: its raw result
is exactly the parsed Color with an empty remainder (for every routine
bundle honoring the spec's parser contract). -/
theorem parse_ok_parser_consumed_input (P : Parsers) (hP : ConsumesAll P)
    (s : GSettings) (n : Notation) (input : String) (c : Color)
    (hn : n ≠ Notation.Name)
    (h : Notation.parse P s n input = Except.ok c) :
    Notation.rawParse P s n input = Except.ok ("", c) := by
  obtain ⟨hhex, hrgb, hhsl, hhsv, hcmyk, hxyz, hlab, hhwb, hlch, hlms,
    hhlab, hoklab, hoklch⟩ := hP
  cases e : Notation.rawParse P s n input with
  | error err =>
      rw [Notation.parse, e] at h
      simp [Except.map] at h
  | ok pr =>
      obtain ⟨rem, c0⟩ := pr
      rw [Notation.parse, e] at h
      have hc : c0 = c := by simpa [Except.map] using h
      subst hc
      have hrem : rem = "" := by
        cases n
        case Hex => exact hhex _ _ _ _ (by simpa [Notation.rawParse] using e)
        case Rgb => exact hrgb _ _ _ (by simpa [Notation.rawParse] using e)
        case Hsl => exact hhsl _ _ _ (by simpa [Notation.rawParse] using e)
        case Hsv => exact hhsv _ _ _ (by simpa [Notation.rawParse] using e)
        case Cmyk => exact hcmyk _ _ _ (by simpa [Notation.rawParse] using e)
        case Xyz => exact hxyz _ _ _ (by simpa [Notation.rawParse] using e)
        case Lab => exact hlab _ _ _ _ _ (by simpa [Notation.rawParse] using e)
        case Hwb => exact hhwb _ _ _ (by simpa [Notation.rawParse] using e)
        case Hcl => exact hlch _ _ _ (by simpa [Notation.rawParse] using e)
        case Lms => exact hlms _ _ _ (by simpa [Notation.rawParse] using e)
        case HunterLab =>
          exact hhlab _ _ _ _ _ (by simpa [Notation.rawParse] using e)
        case Oklab => exact hoklab _ _ _ (by simpa [Notation.rawParse] using e)
        case Oklch => exact hoklch _ _ _ (by simpa [Notation.rawParse] using e)
        case Name => exact absurd rfl hn
      subst hrem
      rfl

/-- C2 witness: the sample bundle parses an rgb input through the
dispatcher with an empty remainder. -/
theorem parse_ok_parser_consumed_input_witness :
    Notation.rawParse specParsers ⟨0, 0, 0⟩ Notation.Rgb "rgb(1, 2, 3)" =
      Except.ok ("", { red := 1, green := 2, blue := 3, alpha := 255 }) :=
  parse_ok_parser_consumed_input specParsers specParsers_consumesAll
    ⟨0, 0, 0⟩ Notation.Rgb "rgb(1, 2, 3)"
    { red := 1, green := 2, blue := 3, alpha := 255 }
    (by decide) (by decide)

/-- C3 counterexample: with the sample routine bundle, an Rgb parse succeeds
and is identical under the leading (2) and trailing (1) alpha-position
configurations — the configured alpha position never reaches the Rgb
routine — while the same configuration change does change the Hex parse. -/
theorem rgb_parse_alpha_position_counterexample :
    Notation.parse specParsers ⟨0, 0, 2⟩ Notation.Rgb "rgb(1, 2, 3)" =
      Notation.parse specParsers ⟨0, 0, 1⟩ Notation.Rgb "rgb(1, 2, 3)" ∧
    Notation.parse specParsers ⟨0, 0, 2⟩ Notation.Rgb "rgb(1, 2, 3)" =
      Except.ok { red := 1, green := 2, blue := 3, alpha := 255 } ∧
    Notation.parse specParsers ⟨0, 0, 2⟩ Notation.Hex "#11223344" ≠
      Notation.parse specParsers ⟨0, 0, 1⟩ Notation.Hex "#11223344" := by
  decide

/-- C3 (amended): the configured alpha position is supplied only to the Hex
routine; for every other variant (Rgb included) the parse result is
invariant under the alpha-position configuration, while the Hex result does
depend on it. -/
theorem parse_alpha_position_reaches_only_hex :
    (∀ (P : Parsers) (s s' : GSettings) (n : Notation) (input : String),
        n ≠ Notation.Hex →
        s.cieStandardObserver = s'.cieStandardObserver →
        s.cieIlluminants = s'.cieIlluminants →
        Notation.parse P s n input = Notation.parse P s' n input) ∧
    Notation.parse specParsers ⟨0, 0, 2⟩ Notation.Hex "#11223344" ≠
      Notation.parse specParsers ⟨0, 0, 1⟩ Notation.Hex "#11223344" := by
  constructor
  · intro P s s' n input hn ho hi
    cases n <;>
      first
        | exact absurd rfl hn
        | rfl
        | simp only [Notation.parse, Notation.rawParse, ho, hi]
  · decide

/-- C3 witness: instantiating the amended statement at the Hsl variant and
two configurations differing only in alpha position. -/
theorem parse_alpha_position_reaches_only_hex_witness :
    Notation.parse specParsers ⟨0, 0, 2⟩ Notation.Hsl "hsl(0, 0%, 0%)" =
      Notation.parse specParsers ⟨0, 0, 1⟩ Notation.Hsl "hsl(0, 0%, 0%)" :=
  parse_alpha_position_reaches_only_hex.1 specParsers ⟨0, 0, 2⟩ ⟨0, 0, 1⟩
    Notation.Hsl "hsl(0, 0%, 0%)" (by decide) rfl rfl

/-- C4: for every variant other than Lab and HunterLab, parsing is
invariant under any change of the illuminant and observer-angle
configuration values. -/
theorem parse_illuminant_observer_reach_only_cie (P : Parsers)
    (s s' : GSettings) (n : Notation) (input : String)
    (hLab : n ≠ Notation.Lab) (hHunter : n ≠ Notation.HunterLab)
    (ha : s.alphaPosition = s'.alphaPosition) :
    Notation.parse P s n input = Notation.parse P s' n input := by
  cases n <;>
    first
      | exact absurd rfl hLab
      | exact absurd rfl hHunter
      | rfl
      | simp only [Notation.parse, Notation.rawParse, ha]

/-- C4 witness: instantiating at Rgb with configurations differing in both
illuminant and observer angle. -/
theorem parse_illuminant_observer_reach_only_cie_witness :
    Notation.parse specParsers ⟨0, 3, 0⟩ Notation.Rgb "rgb(1, 2, 3)" =
      Notation.parse specParsers ⟨1, 999, 0⟩ Notation.Rgb "rgb(1, 2, 3)" :=
  parse_illuminant_observer_reach_only_cie specParsers ⟨0, 3, 0⟩ ⟨1, 999, 0⟩
    Notation.Rgb "rgb(1, 2, 3)" (by decide) (by decide) rfl

/-- C6: the Name variant delegates to the registry lookup with all four
tolerance flags enabled, returns exactly the registry's Color on a hit, and
fails with the "No name found" error precisely when the lookup misses. -/
theorem parse_name_registry_delegation (P : Parsers) (s : GSettings)
    (input : String) :
    (∀ c : Color,
        Notation.parse P s Notation.Name input = Except.ok c ↔
          P.color_names_color input true true true true = some c) ∧
    (Notation.parse P s Notation.Name input =
        Except.error (ColorError.ParsingError "No name found") ↔
      P.color_names_color input true true true true = none) := by
  refine ⟨fun c => ?_, ?_⟩ <;>
    cases e : P.color_names_color input true true true true <;>
    simp [Notation.parse, Notation.rawParse, Except.map, e]

/-- C7: as_str is total — every variant and Color yields a String — and for
the Name variant a registry miss yields the localized "Not named"
placeholder while a hit yields the registry's name. -/
theorem as_str_total_with_name_sentinel :
    (∀ (F : Formatters) (s : GSettings) (n : Notation) (c : Color),
        ∃ out : String, Notation.as_str F s n c = out) ∧
    (∀ (F : Formatters) (s : GSettings) (c : Color),
        F.color_names_name c true true true true = none →
          Notation.as_str F s Notation.Name c = gettext "Not named") ∧
    (∀ (F : Formatters) (s : GSettings) (c : Color) (nm : String),
        F.color_names_name c true true true true = some nm →
          Notation.as_str F s Notation.Name c = nm) := by
  refine ⟨fun F s n c => ⟨_, rfl⟩, ?_, ?_⟩
  · intro F s c h
    simp [Notation.as_str, h]
  · intro F s c nm h
    simp [Notation.as_str, h]

/-- C7 witness: a Color the sample registry does not know formats to the
"Not named" sentinel. -/
theorem as_str_total_with_name_sentinel_witness :
    Notation.as_str specFormatters ⟨0, 0, 0⟩ Notation.Name
        { red := 1, green := 2, blue := 3, alpha := 255 } =
      gettext "Not named" :=
  as_str_total_with_name_sentinel.2.1 specFormatters ⟨0, 0, 0⟩
    { red := 1, green := 2, blue := 3, alpha := 255 } (by decide)

/-- C10: the raw settings integers are converted by total functions and the
dispatcher adds no failure of its own: parse succeeds exactly when the
underlying routine's raw result succeeds, out-of-table indices convert
silently (illuminant to D65, alpha position to None), and any two illuminant
settings that convert equally give identical parses. -/
theorem parse_total_in_raw_configuration :
    (∀ (P : Parsers) (s : GSettings) (n : Notation) (input : String),
        exceptIsOk (Notation.parse P s n input) =
          exceptIsOk (Notation.rawParse P s n input)) ∧
    (∀ i : Nat, 11 ≤ i → Illuminant.fromU32 i = Illuminant.D65) ∧
    (∀ i : Nat, 3 ≤ i → AlphaPosition.fromU32 i = AlphaPosition.None) ∧
    (∀ (P : Parsers) (n : Notation) (input : String) (obs ap ill ill' : Int),
        Illuminant.fromU32 (toU32 ill) = Illuminant.fromU32 (toU32 ill') →
        Notation.parse P ⟨obs, ill, ap⟩ n input =
          Notation.parse P ⟨obs, ill', ap⟩ n input) := by
  refine ⟨?_, ?_, ?_, ?_⟩
  · intro P s n input
    cases e : Notation.rawParse P s n input <;>
      simp [Notation.parse, e, Except.map, exceptIsOk]
  · intro i h
    obtain ⟨j, rfl⟩ : ∃ j, i = j + 11 := ⟨i - 11, by omega⟩
    rfl
  · intro i h
    obtain ⟨j, rfl⟩ : ∃ j, i = j + 3 := ⟨i - 3, by omega⟩
    rfl
  · intro P n input obs ap ill ill' h
    cases n <;>
      first
        | rfl
        | simp only [Notation.parse, Notation.rawParse, h]

/-- C10 witness: an out-of-range illuminant index converts to D65, an
out-of-range alpha index converts to None, and parsing proceeds identically
under illuminant settings 999 and 5. -/
theorem parse_total_in_raw_configuration_witness :
    Illuminant.fromU32 999 = Illuminant.D65 ∧
    AlphaPosition.fromU32 7 = AlphaPosition.None ∧
    Notation.parse specParsers ⟨0, 999, 0⟩ Notation.Rgb "rgb(1, 2, 3)" =
      Notation.parse specParsers ⟨0, 5, 0⟩ Notation.Rgb "rgb(1, 2, 3)" :=
  ⟨parse_total_in_raw_configuration.2.1 999 (by decide),
   parse_total_in_raw_configuration.2.2.1 7 (by decide),
   parse_total_in_raw_configuration.2.2.2 specParsers Notation.Rgb
     "rgb(1, 2, 3)" 0 0 999 5 (by decide)⟩
